import Mathlib

/-!
Shallow embedding of the `audio-frontend` browser application.

The repository consists of three near-duplicate React components:
* `src/src/App.tsx` — tabbed uploader plus a sample-song browser with
  per-item download and delete actions (embedded as `AppMain`);
* `src/unnamed/part_000` — uploader with compression-descriptor metadata
  (embedded as `UploadApp`);
* `src/unnamed/part_001` — tabbed uploader plus a random-sample browser
  (embedded as `RandomApp`).

Each React event handler is embedded as a pure state-transition function.
The asynchronous environment (network responses, thrown exceptions,
parsed JSON payloads) is passed in as an explicit outcome value, and a
`Bool` result records whether the handler issued a network request.
A `disabled` control in the rendered form cannot fire its handler, so the
UI-level submission path is embedded as a guard consulting the rendered
`disabled` condition before the handler runs.
-/

namespace AudioFrontend

/-- JavaScript `x || d` for an optional string field `x` of a parsed JSON
payload: `undefined` and the empty string are falsy and fall back to `d`,
any other string is returned unchanged. -/
def jsOr (m : Option String) (d : String) : String :=
  match m with
  | none => d
  | some s => if s = "" then d else s

/-- Characters stripped by JavaScript `String.prototype.trim` (the common
whitespace subset relevant here). -/
def isJsWhitespace (c : Char) : Bool :=
  c == ' ' || c == '\t' || c == '\n' || c == '\r' || c == '\x0B' || c == '\x0C'

/-- JavaScript `String.prototype.trim`: strip whitespace from both ends. -/
def jsTrim (s : String) : String :=
  String.mk (((s.data.dropWhile isJsWhitespace).reverse.dropWhile isJsWhitespace).reverse)

/-- JavaScript `err instanceof Error ? err.message : 'Unknown error'`:
a thrown value that is an `Error` carries `some message`. -/
def jsErrMessage : Option String → String
  | some m => m
  | none => "Unknown error"

/-- A JavaScript `Set<string>` in insertion order. -/
abbrev JsStringSet : Type := List String

/-- `Set.prototype.add`: a no-op when the element is already present,
otherwise appended at the end. -/
def jsSetAdd (s : JsStringSet) (x : String) : JsStringSet :=
  if (List.any s fun y => y == x) then s else s ++ [x]

/-- `Set.prototype.delete`. -/
def jsSetDelete (s : JsStringSet) (x : String) : JsStringSet :=
  List.filter (fun y => y != x) s

/-- `Set.prototype.has`. -/
def jsSetHas (s : JsStringSet) (x : String) : Bool :=
  List.any s fun y => y == x

/-- JavaScript `Array.prototype.filter` with an index-aware callback,
counting from the given start index. -/
def filterIdx {α : Type} (p : Int → α → Bool) : Int → List α → List α
  | _, [] => []
  | i, a :: rest =>
      if p i a then a :: filterIdx p (i + 1) rest else filterIdx p (i + 1) rest

/-- A user-selected file held in the queue: a name and an opaque payload. -/
structure PendingFile where
  name : String
  payload : List Nat
deriving DecidableEq

/-- `handleRemoveFile` (identical in `App.tsx` and `part_001`):
`prev.filter((_, index) => index !== indexToRemove)`. -/
def handleRemoveFile {α : Type} (prev : List α) (indexToRemove : Int) : List α :=
  filterIdx (fun index _ => index != indexToRemove) 0 prev

/-- Result of a `POST /upload` round trip: either the fetch or the JSON
parse threw, or the body parsed and carried an optional `message` field. -/
inductive UploadOutcome
  | thrown
  | ok (message : Option String)

/-- Result of a list-fetch round trip, parametric in the song record
type: thrown, or parsed with a `success` flag, optional `songs` array and
optional `message`. -/
inductive ListOutcome (σ : Type)
  | thrown
  | ok (success : Bool) (songs : Option (List σ)) (message : Option String)

/-- Result of a `GET /files/download/:id` round trip: the fetch (or blob
extraction) threw, or a response arrived with an HTTP status and a blob
of the given byte size. -/
inductive DownloadOutcome
  | fetchThrown (errMessage : Option String)
  | response (status : Nat) (blobSize : Nat)

/-- Result of a `DELETE /files/song/:id` round trip. -/
inductive DeleteOutcome
  | thrown
  | ok (success : Bool) (deletedFromDatabase : Bool) (deletedFromS3 : Bool)
       (message : Option String)

/-- `Response.ok`: HTTP status in the 200–299 range. -/
def responseOk (status : Nat) : Bool :=
  200 ≤ status && status ≤ 299

/-- The two tab values of the tabbed variants. -/
inductive TabType
  | upload
  | samples
deriving DecidableEq

namespace AppMain

/-- Nested `metadata` object of a `Song` record in `App.tsx`. -/
structure SongMetadata where
  original_filename : String
  upload_timestamp : String
deriving DecidableEq

/-- The `Song` record type of `App.tsx`. -/
structure Song where
  id : String
  artist : String
  song_name : String
  file_name : String
  compression_type : String
  created_by : String
  created_at : String
  metadata : SongMetadata
  file_size : Nat
  s3_key : String
  mime_type : String
  presignedUrl : Option String
deriving DecidableEq

/-- The component state of `App.tsx`: every `useState` hook plus the
native file-input value held behind `fileInputRef`. -/
structure AppState where
  activeTab : TabType
  files : List PendingFile
  message : String
  uploading : Bool
  songs : List Song
  loadingSongs : Bool
  downloadingSongs : JsStringSet
  deletingSongs : JsStringSet
  fileInputValue : String
deriving DecidableEq

/-- `handleUpload` of `App.tsx`. With an empty queue it sets the message
and returns without a request. Otherwise it sets `uploading`, issues the
request, sets the message from the outcome, and in the `finally` block
clears `uploading`, the queue and the native input value. The returned
`Bool` records whether the network request was issued. -/
def handleUpload (st : AppState) (o : UploadOutcome) : AppState × Bool :=
  if st.files.length = 0 then
    ({ st with message := "Please choose at least one audio file." }, false)
  else
    let afterTry :=
      match o with
      | .ok m => { st with uploading := true, message := jsOr m "Upload complete!" }
      | .thrown => { st with uploading := true, message := "Upload failed." }
    ({ afterTry with uploading := false, files := [], fileInputValue := "" }, true)

/-- The state right after `fetchSampleSongs` asserts its loading flag and
clears the message, before the request is issued. -/
def fetchStart (st : AppState) : AppState :=
  { st with loadingSongs := true, message := "" }

/-- `fetchSampleSongs` of `App.tsx` (`GET /files/all`). -/
def fetchSampleSongs (st : AppState) (o : ListOutcome Song) : AppState :=
  let st0 := fetchStart st
  let st1 :=
    match o with
    | .ok true songs m =>
        { st0 with songs := songs.getD [], message := jsOr m "Sample songs loaded!" }
    | .ok false _ _ => { st0 with message := "Failed to load sample songs." }
    | .thrown => { st0 with message := "Failed to load sample songs." }
  { st1 with loadingSongs := false }

/-- The state right after `downloadSong` adds the id to the download
busy-set, before the request is issued. -/
def downloadStart (st : AppState) (songId : String) : AppState :=
  { st with downloadingSongs := jsSetAdd st.downloadingSongs songId }

/-- `downloadSong` of `App.tsx`: add the id to the busy-set, fetch the
stream, treat a non-ok status and an empty blob as thrown errors, set the
status message, and in the `finally` block remove the id from the
busy-set. -/
def downloadSong (st : AppState) (songId songName : String) (o : DownloadOutcome) :
    AppState :=
  let st1 := downloadStart st songId
  let st2 :=
    match o with
    | .fetchThrown errMessage =>
        { st1 with message := "Download failed: " ++ jsErrMessage errMessage }
    | .response status blobSize =>
        if !responseOk status then
          { st1 with message := "Download failed: HTTP error! status: " ++ toString status }
        else if blobSize = 0 then
          { st1 with message := "Download failed: Downloaded file is empty" }
        else
          { st1 with message := "Downloaded " ++ songName ++ " successfully!" }
  { st2 with downloadingSongs := jsSetDelete st2.downloadingSongs songId }

/-- Per-tier status fragment for the database tier in `deleteSong`. -/
def dbTierStatus (deletedFromDatabase : Bool) : String :=
  if deletedFromDatabase then "✅ Database" else "❌ Database"

/-- Per-tier status fragment for the object-storage tier in `deleteSong`. -/
def s3TierStatus (deletedFromS3 : Bool) : String :=
  if deletedFromS3 then "✅ Cloud Storage" else "❌ Cloud Storage"

/-- The state right after `deleteSong` adds the id to the delete
busy-set, before the request is issued. -/
def deleteStart (st : AppState) (songId : String) : AppState :=
  { st with deletingSongs := jsSetAdd st.deletingSongs songId }

/-- `deleteSong` of `App.tsx`: return immediately when the confirmation
prompt is declined; otherwise add the id to the busy-set, issue the
DELETE request, on success filter the song out of the snapshot and report
the two per-tier booleans, on failure report the backend message or a
fallback, and in the `finally` block remove the id from the busy-set. -/
def deleteSong (st : AppState) (songId songName : String) (confirmed : Bool)
    (o : DeleteOutcome) : AppState × Bool :=
  if !confirmed then (st, false)
  else
    let st1 := deleteStart st songId
    let st2 :=
      match o with
      | .ok true db s3 _ =>
          { st1 with
              songs := st1.songs.filter fun song => song.id != songId,
              message := "\"" ++ songName ++ "\" deleted: "
                ++ dbTierStatus db ++ " | " ++ s3TierStatus s3 }
      | .ok false _ _ m =>
          { st1 with
              message := "Failed to delete \"" ++ songName ++ "\". "
                ++ jsOr m "Unknown error." }
      | .thrown =>
          { st1 with
              message := "Failed to delete \"" ++ songName ++ "\". Please try again." }
    ({ st2 with deletingSongs := jsSetDelete st2.deletingSongs songId }, true)

/-- `disabled` condition of the per-song download control:
`downloadingSongs.has(song.id) || deletingSongs.has(song.id)`. -/
def downloadButtonDisabled (st : AppState) (songId : String) : Bool :=
  jsSetHas st.downloadingSongs songId || jsSetHas st.deletingSongs songId

/-- `disabled` condition of the per-song delete control (identical to the
download control's condition). -/
def deleteButtonDisabled (st : AppState) (songId : String) : Bool :=
  jsSetHas st.downloadingSongs songId || jsSetHas st.deletingSongs songId

/-- UI-level download click: a disabled control fires no handler, so the
request is only issued when the rendered `disabled` condition is false. -/
def downloadSongGated (st : AppState) (songId songName : String)
    (o : DownloadOutcome) : AppState × Bool :=
  if downloadButtonDisabled st songId then (st, false)
  else (downloadSong st songId songName o, true)

/-- UI-level delete click: a disabled control fires no handler. -/
def deleteSongGated (st : AppState) (songId songName : String) (confirmed : Bool)
    (o : DeleteOutcome) : AppState × Bool :=
  if deleteButtonDisabled st songId then (st, false)
  else deleteSong st songId songName confirmed o

end AppMain

namespace UploadApp

/-- The enumerated compression formats offered by `part_000`. -/
def compressionOptions : List String :=
  ["mp3", "aac", "flac", "alac", "wav", "ogg", "opus", "dolby atmos", "other"]

/-- The component state of `part_000`: every `useState` hook plus the
native file-input value held behind `fileInputRef`. -/
structure State where
  files : List PendingFile
  isCompressed : Bool
  compressionType : String
  customCompression : String
  message : String
  uploading : Bool
  fileInputValue : String
deriving DecidableEq

/-- `resolvedCompression` inside `handleUpload` of `part_000`:
`compressionType === 'other' && customCompression ? customCompression :
compressionType`. -/
def resolvedCompression (st : State) : String :=
  if st.compressionType == "other" && st.customCompression != "" then
    st.customCompression
  else st.compressionType

/-- The multipart form body built by `handleUpload` of `part_000`: one
`audio` part per file, the `compressed` flag, and the resolved descriptor
when compression is enabled and a descriptor resolved. -/
def uploadFormData (st : State) : List (String × String) :=
  (st.files.map fun f => ("audio", f.name))
    ++ [("compressed", if st.isCompressed then "true" else "false")]
    ++ (if st.isCompressed && resolvedCompression st != "" then
          [("compression_type", resolvedCompression st)]
        else [])

/-- `handleUpload` of `part_000`. With an empty queue it sets the message
and returns without a request. Otherwise it issues the request; on a
parsed response it sets the message and clears the queue, both descriptor
fields, the compressed flag and the native input value; on a thrown error
it only sets the failure message; the `finally` block clears `uploading`. -/
def handleUpload (st : State) (o : UploadOutcome) : State × Bool :=
  if st.files.length = 0 then
    ({ st with message := "Please choose at least one audio file." }, false)
  else
    let st1 := { st with uploading := true }
    match o with
    | .ok m =>
        ({ st1 with
            message := jsOr m "Upload complete!",
            files := [],
            compressionType := "",
            customCompression := "",
            isCompressed := false,
            fileInputValue := "",
            uploading := false }, true)
    | .thrown =>
        ({ st1 with message := "Upload failed.", uploading := false }, true)

/-- `disabled` condition of the submit control of `part_000`:
`uploading || !files.length || (isCompressed && (!compressionType ||
(compressionType === 'other' && !customCompression.trim())))`. -/
def primaryButtonDisabled (st : State) : Bool :=
  st.uploading || st.files.isEmpty
    || (st.isCompressed
        && (st.compressionType == ""
            || (st.compressionType == "other" && jsTrim st.customCompression == "")))

/-- UI-level submission of the `part_000` form: an implicit or explicit
submit through a disabled default button is not dispatched, so
`handleUpload` only runs when the rendered `disabled` condition is false. -/
def submitUpload (st : State) (o : UploadOutcome) : State × Bool :=
  if primaryButtonDisabled st then (st, false) else handleUpload st o

end UploadApp

namespace RandomApp

/-- The `Song` record type of `part_001`. -/
structure Song where
  key : String
  size : Nat
  lastModified : String
deriving DecidableEq

/-- The component state of `part_001`. -/
structure State where
  activeTab : TabType
  files : List PendingFile
  message : String
  uploading : Bool
  songs : List Song
  loadingSongs : Bool
  downloadingSongs : JsStringSet
  fileInputValue : String
deriving DecidableEq

/-- `fetchSampleSongs` of `part_001` (`GET /files/random?count=3`). -/
def fetchSampleSongs (st : State) (o : ListOutcome Song) : State :=
  let st0 := { st with loadingSongs := true, message := "" }
  let st1 :=
    match o with
    | .ok true songs m =>
        { st0 with songs := songs.getD [], message := jsOr m "Sample songs loaded!" }
    | .ok false _ _ => { st0 with message := "Failed to load sample songs." }
    | .thrown => { st0 with message := "Failed to load sample songs." }
  { st1 with loadingSongs := false }

end RandomApp

/-- A list-fetch round trip counts as failed when the request or parse
threw or the parsed payload carries `success = false`. -/
def listFetchFailed {σ : Type} : ListOutcome σ → Bool
  | .thrown => true
  | .ok success _ _ => !success

/-! ### Concrete sample data used to instantiate the claims -/

/-- A concrete one-file queue. -/
def sampleQueue : List PendingFile := [⟨"a.mp3", [1, 2]⟩]

/-- A concrete `Song` record of the `App.tsx` variant. -/
def sampleSong : AppMain.Song where
  id := "song-1"
  artist := "Artist"
  song_name := "Song"
  file_name := "song.mp3"
  compression_type := "mp3"
  created_by := "user"
  created_at := "2024-01-01"
  metadata := ⟨"song.mp3", "2024-01-01"⟩
  file_size := 100
  s3_key := "key-1"
  mime_type := "audio/mpeg"
  presignedUrl := none

/-- A concrete `App.tsx` state with one queued file. -/
def sampleAppState : AppMain.AppState where
  activeTab := .upload
  files := sampleQueue
  message := ""
  uploading := false
  songs := []
  loadingSongs := false
  downloadingSongs := []
  deletingSongs := []
  fileInputValue := "a.mp3"

/-- A concrete `App.tsx` state on the samples tab with one loaded song
and one in-flight download. -/
def busyAppState : AppMain.AppState where
  activeTab := .samples
  files := []
  message := ""
  uploading := false
  songs := [sampleSong]
  loadingSongs := false
  downloadingSongs := ["song-1"]
  deletingSongs := ["song-1"]
  fileInputValue := ""

/-- A concrete `part_000` state with one queued file. -/
def sampleUploadState : UploadApp.State where
  files := sampleQueue
  isCompressed := false
  compressionType := ""
  customCompression := ""
  message := ""
  uploading := false
  fileInputValue := "a.mp3"

/-- A concrete `part_000` state with compression tagging enabled,
enumerated selection "other" and whitespace-only free text. -/
def blankOtherUploadState : UploadApp.State where
  files := sampleQueue
  isCompressed := true
  compressionType := "other"
  customCompression := " "
  message := ""
  uploading := false
  fileInputValue := "a.mp3"

/-- A concrete `part_001` state with one loaded song. -/
def sampleRandomState : RandomApp.State where
  activeTab := .samples
  files := []
  message := ""
  uploading := false
  songs := [⟨"key-1", 10, "2024-01-01"⟩]
  loadingSongs := false
  downloadingSongs := []
  fileInputValue := ""

/-! ### Supporting lemmas on the JavaScript primitives -/

theorem jsOr_none_or_empty (m : Option String) (d : String)
    (h : m = none ∨ m = some "") : jsOr m d = d := by
  rcases h with h | h <;> simp [h, jsOr]

theorem jsOr_some_of_ne (s d : String) (h : s ≠ "") : jsOr (some s) d = s := by
  simp [jsOr, h]

theorem jsTrim_of_all_whitespace (s : String)
    (h : ∀ c ∈ s.data, isJsWhitespace c = true) : jsTrim s = "" := by
  have h1 : s.data.dropWhile isJsWhitespace = [] :=
    List.dropWhile_eq_nil_iff.mpr h
  simp [jsTrim, h1]

theorem jsSetHas_add_self (s : JsStringSet) (x : String) :
    jsSetHas (jsSetAdd s x) x = true := by
  unfold jsSetAdd jsSetHas
  by_cases h : (List.any s fun y => y == x) = true
  · simp [h]
  · simp [h, List.any_append]

theorem jsSetHas_add_of_ne (s : JsStringSet) (x y : String) (h : y ≠ x) :
    jsSetHas (jsSetAdd s x) y = jsSetHas s y := by
  unfold jsSetAdd jsSetHas
  by_cases hx : (List.any s fun z => z == x) = true
  · simp [hx]
  · simp [hx, List.any_append, Ne.symm h]

theorem jsSetHas_delete_self (s : JsStringSet) (x : String) :
    jsSetHas (jsSetDelete s x) x = false := by
  induction s with
  | nil => rfl
  | cons a rest ih =>
    by_cases h : a = x
    · simp [jsSetDelete, jsSetHas, h]
    · simp [jsSetDelete, jsSetHas, h]

theorem jsSetHas_delete_of_ne (s : JsStringSet) (x y : String) (h : y ≠ x) :
    jsSetHas (jsSetDelete s x) y = jsSetHas s y := by
  rw [Bool.eq_iff_iff]
  simp only [jsSetDelete, jsSetHas, List.any_eq_true, List.mem_filter,
    bne_iff_ne, ne_eq, beq_iff_eq]
  constructor
  · rintro ⟨a, ⟨ha, _⟩, hay⟩
    exact ⟨a, ha, hay⟩
  · rintro ⟨a, ha, hay⟩
    subst hay
    exact ⟨a, ⟨ha, h⟩, rfl⟩

theorem filterIdx_ne_out_of_range {α : Type} (l : List α) (t n : Int)
    (h : t < n ∨ n + l.length ≤ t) :
    filterIdx (fun index _ => index != t) n l = l := by
  induction l generalizing n with
  | nil => rfl
  | cons a rest ih =>
    simp only [List.length_cons] at h
    have hne : (n != t) = true := by
      simp only [bne_iff_ne, ne_eq]
      omega
    simp only [filterIdx, hne, if_true]
    rw [ih (n + 1) (by push_cast at h ⊢; omega)]

theorem filterIdx_ne_shift {α : Type} (l : List α) (t n : Int) :
    filterIdx (fun index _ => index != t) (n + 1) l
      = filterIdx (fun index _ => index != t - 1) n l := by
  induction l generalizing n with
  | nil => rfl
  | cons a rest ih =>
    have hc : ((n + 1) != t) = (n != t - 1) := by
      by_cases h : n + 1 = t
      · simp [h, show n = t - 1 by omega]
      · have h1 : ((n + 1) != t) = true := by simp [bne_iff_ne, h]
        have h2 : (n != t - 1) = true := by
          simp only [bne_iff_ne, ne_eq]
          omega
        rw [h1, h2]
    simp only [filterIdx, hc]
    rw [ih (n + 1)]

theorem handleRemoveFile_eq_eraseIdx {α : Type} (l : List α) (i : Nat)
    (h : i < l.length) :
    handleRemoveFile l (i : Int) = l.eraseIdx i := by
  induction l generalizing i with
  | nil => simp at h
  | cons a rest ih =>
    cases i with
    | zero =>
      simp only [handleRemoveFile, filterIdx, Nat.cast_zero, bne_self_eq_false,
        Bool.false_eq_true, if_false, List.eraseIdx]
      exact filterIdx_ne_out_of_range rest 0 1 (Or.inl (by omega))
    | succ j =>
      have hc : ((0 : Int) != ((j + 1 : Nat) : Int)) = true := by
        simp only [bne_iff_ne, ne_eq]
        push_cast
        omega
      simp only [handleRemoveFile, filterIdx, hc, if_true, List.eraseIdx]
      have hshift := filterIdx_ne_shift rest ((j + 1 : Nat) : Int) 0
      have hcast : ((j + 1 : Nat) : Int) - 1 = (j : Int) := by push_cast; ring
      rw [hcast] at hshift
      rw [show (0 : Int) + 1 = 1 from by ring] at hshift ⊢
      rw [hshift]
      have := ih j (by simpa using Nat.lt_of_succ_lt_succ h)
      simpa [handleRemoveFile] using this

/-! ### Claims C6 and C9: removing a file from the queue by index -/

/-- Claim C6: for every file queue of `N` files and every index `i` with
`0 ≤ i < N`, `handleRemoveFile` yields a queue of `N − 1` files equal to
the original queue with exactly the entry at position `i` omitted,
preserving the relative order of the remaining entries. -/
theorem C6_removeFile_in_range {α : Type} (l : List α) (i : Nat)
    (h : i < l.length) :
    handleRemoveFile l (i : Int) = l.eraseIdx i
      ∧ (handleRemoveFile l (i : Int)).length = l.length - 1 := by
  refine ⟨handleRemoveFile_eq_eraseIdx l i h, ?_⟩
  rw [handleRemoveFile_eq_eraseIdx l i h]
  have := List.length_eraseIdx_add_one (l := l) (i := i) h
  omega

/-- Witness for C6 at a concrete three-element queue and index 1. -/
theorem C6_removeFile_in_range_witness :
    handleRemoveFile ([⟨"a.mp3", []⟩, ⟨"b.wav", []⟩, ⟨"c.flac", []⟩] : List PendingFile)
        (((1 : Nat)) : Int)
      = List.eraseIdx ([⟨"a.mp3", []⟩, ⟨"b.wav", []⟩, ⟨"c.flac", []⟩] : List PendingFile) 1
      ∧ (handleRemoveFile
          ([⟨"a.mp3", []⟩, ⟨"b.wav", []⟩, ⟨"c.flac", []⟩] : List PendingFile)
          (((1 : Nat)) : Int)).length = 3 - 1 :=
  C6_removeFile_in_range
    ([⟨"a.mp3", []⟩, ⟨"b.wav", []⟩, ⟨"c.flac", []⟩] : List PendingFile) 1 (by decide)

/-- Claim C1: for every upload submission with a non-empty file queue
whose network request succeeds and whose response body parses as JSON,
the status message becomes the response's `message` string when present
and non-empty and otherwise "Upload complete!"; the file queue becomes
empty, the compression descriptor state (in the `part_000` variant that
has it) is reset, and the file-input value is cleared. -/
theorem C1_upload_success (stA : AppMain.AppState) (stB : UploadApp.State)
    (m : Option String) (hA : stA.files ≠ []) (hB : stB.files ≠ []) :
    (AppMain.handleUpload stA (.ok m)).2 = true
      ∧ ((m = none ∨ m = some "") →
          (AppMain.handleUpload stA (.ok m)).1.message = "Upload complete!")
      ∧ (∀ s, m = some s → s ≠ "" →
          (AppMain.handleUpload stA (.ok m)).1.message = s)
      ∧ (AppMain.handleUpload stA (.ok m)).1.files = []
      ∧ (AppMain.handleUpload stA (.ok m)).1.fileInputValue = ""
      ∧ (UploadApp.handleUpload stB (.ok m)).2 = true
      ∧ ((m = none ∨ m = some "") →
          (UploadApp.handleUpload stB (.ok m)).1.message = "Upload complete!")
      ∧ (∀ s, m = some s → s ≠ "" →
          (UploadApp.handleUpload stB (.ok m)).1.message = s)
      ∧ (UploadApp.handleUpload stB (.ok m)).1.files = []
      ∧ (UploadApp.handleUpload stB (.ok m)).1.compressionType = ""
      ∧ (UploadApp.handleUpload stB (.ok m)).1.customCompression = ""
      ∧ (UploadApp.handleUpload stB (.ok m)).1.isCompressed = false
      ∧ (UploadApp.handleUpload stB (.ok m)).1.fileInputValue = "" := by
  have hA0 : ¬ stA.files.length = 0 := by
    simpa [List.length_eq_zero] using hA
  have hB0 : ¬ stB.files.length = 0 := by
    simpa [List.length_eq_zero] using hB
  have hmA : (AppMain.handleUpload stA (.ok m)).1.message = jsOr m "Upload complete!" := by
    simp [AppMain.handleUpload, hA0]
  have hmB : (UploadApp.handleUpload stB (.ok m)).1.message = jsOr m "Upload complete!" := by
    simp [UploadApp.handleUpload, hB0]
  refine ⟨by simp [AppMain.handleUpload, hA0],
    fun h => by rw [hmA]; exact jsOr_none_or_empty m _ h,
    fun s hm hs => by rw [hmA, hm]; exact jsOr_some_of_ne s _ hs,
    by simp [AppMain.handleUpload, hA0],
    by simp [AppMain.handleUpload, hA0],
    by simp [UploadApp.handleUpload, hB0],
    fun h => by rw [hmB]; exact jsOr_none_or_empty m _ h,
    fun s hm hs => by rw [hmB, hm]; exact jsOr_some_of_ne s _ hs,
    by simp [UploadApp.handleUpload, hB0],
    by simp [UploadApp.handleUpload, hB0],
    by simp [UploadApp.handleUpload, hB0],
    by simp [UploadApp.handleUpload, hB0],
    by simp [UploadApp.handleUpload, hB0]⟩

/-- Witness for C1: a successful upload of the concrete one-file states
with response message "3 files received". -/
theorem C1_upload_success_witness :
    (AppMain.handleUpload sampleAppState (.ok (some "3 files received"))).1.files = []
      ∧ (AppMain.handleUpload sampleAppState
          (.ok (some "3 files received"))).1.message = "3 files received"
      ∧ (UploadApp.handleUpload sampleUploadState
          (.ok (some "3 files received"))).1.isCompressed = false := by
  have h := C1_upload_success sampleAppState sampleUploadState (some "3 files received")
    (by decide) (by decide)
  exact ⟨h.2.2.2.1, h.2.2.1 "3 files received" rfl (by decide),
    h.2.2.2.2.2.2.2.2.2.2.2.1⟩

/-- Claim C2: for every submission attempt made while the file queue is
empty, no network request is issued, the status message is set to exactly
"Please choose at least one audio file.", and all other state is
unchanged (in both variants that implement `handleUpload`). -/
theorem C2_empty_queue_rejected (stA : AppMain.AppState) (stB : UploadApp.State)
    (oA oB : UploadOutcome) (hA : stA.files = []) (hB : stB.files = []) :
    AppMain.handleUpload stA oA
        = ({ stA with message := "Please choose at least one audio file." }, false)
      ∧ UploadApp.handleUpload stB oB
        = ({ stB with message := "Please choose at least one audio file." }, false) := by
  constructor
  · simp [AppMain.handleUpload, hA]
  · simp [UploadApp.handleUpload, hB]

/-- Witness for C2: empty-queue submission on the concrete states. -/
theorem C2_empty_queue_rejected_witness :
    AppMain.handleUpload { sampleAppState with files := [] } .thrown
        = ({ { sampleAppState with files := [] } with
              message := "Please choose at least one audio file." }, false)
      ∧ UploadApp.handleUpload { sampleUploadState with files := [] } (.ok none)
        = ({ { sampleUploadState with files := [] } with
              message := "Please choose at least one audio file." }, false) :=
  C2_empty_queue_rejected { sampleAppState with files := [] }
    { sampleUploadState with files := [] } .thrown (.ok none) rfl rfl

/-- Claim C3: whenever compression tagging is enabled and no descriptor
is resolved — the enumerated selection is empty, or it equals "other" and
the free-text value is blank (empty or whitespace-only) — the submit
control is disabled and the UI-level submission issues no upload request
and leaves the state unchanged. -/
theorem C3_unresolved_compression_blocks (st : UploadApp.State) (o : UploadOutcome)
    (hc : st.isCompressed = true)
    (hu : st.compressionType = ""
        ∨ (st.compressionType = "other"
            ∧ ∀ c ∈ st.customCompression.data, isJsWhitespace c = true)) :
    UploadApp.primaryButtonDisabled st = true
      ∧ UploadApp.submitUpload st o = (st, false) := by
  have hdis : UploadApp.primaryButtonDisabled st = true := by
    rcases hu with h | ⟨h1, h2⟩
    · simp [UploadApp.primaryButtonDisabled, hc, h]
    · simp [UploadApp.primaryButtonDisabled, hc, h1, jsTrim_of_all_whitespace _ h2]
  exact ⟨hdis, by simp [UploadApp.submitUpload, hdis]⟩

/-- Witness for C3: compression tagging enabled, "other" selected, and a
whitespace-only free-text value, on a concrete state. -/
theorem C3_unresolved_compression_blocks_witness :
    UploadApp.primaryButtonDisabled blankOtherUploadState = true
      ∧ UploadApp.submitUpload blankOtherUploadState (.ok none)
          = (blankOtherUploadState, false) :=
  C3_unresolved_compression_blocks blankOtherUploadState (.ok none) rfl
    (Or.inr ⟨rfl, by decide⟩)

/-- Claim C9: for every file queue and every out-of-range removal index
(negative, or at least the queue length), `handleRemoveFile` leaves the
queue exactly unchanged. -/
theorem C9_removeFile_out_of_range {α : Type} (l : List α) (i : Int)
    (h : i < 0 ∨ (l.length : Int) ≤ i) :
    handleRemoveFile l i = l :=
  filterIdx_ne_out_of_range l i 0 (by omega)

/-- Witness for C9 at a concrete two-element queue and index -1. -/
theorem C9_removeFile_out_of_range_witness :
    handleRemoveFile ([⟨"a.mp3", []⟩, ⟨"b.wav", []⟩] : List PendingFile) (-1)
      = ([⟨"a.mp3", []⟩, ⟨"b.wav", []⟩] : List PendingFile) :=
  C9_removeFile_out_of_range ([⟨"a.mp3", []⟩, ⟨"b.wav", []⟩] : List PendingFile) (-1)
    (Or.inl (by decide))

/-- Claim C4: for every `deleteSong` invocation that issues the DELETE
request: on a parsed success response the songs snapshot becomes the
previous snapshot with exactly the entries whose id equals the deleted
id removed (a sublist, so relative order is preserved, with no re-fetch)
and the message reports the two per-tier deletion booleans; on a reported
failure or a thrown request/parse the snapshot is unchanged and the
message reports the backend's message or a generic fallback. -/
theorem C4_delete_song (st : AppMain.AppState) (songId songName : String)
    (db s3 : Bool) (m : Option String) :
    ((AppMain.deleteSong st songId songName true (.ok true db s3 m)).1.songs.Sublist
        st.songs
      ∧ (∀ song,
          song ∈ (AppMain.deleteSong st songId songName true (.ok true db s3 m)).1.songs
            ↔ song ∈ st.songs ∧ song.id ≠ songId)
      ∧ (AppMain.deleteSong st songId songName true (.ok true db s3 m)).1.message
          = "\"" ++ songName ++ "\" deleted: " ++ AppMain.dbTierStatus db ++ " | "
            ++ AppMain.s3TierStatus s3)
      ∧ ((AppMain.deleteSong st songId songName true (.ok false db s3 m)).1.songs
          = st.songs
        ∧ ((m = none ∨ m = some "") →
            (AppMain.deleteSong st songId songName true (.ok false db s3 m)).1.message
              = "Failed to delete \"" ++ songName ++ "\". Unknown error.")
        ∧ (∀ s, m = some s → s ≠ "" →
            (AppMain.deleteSong st songId songName true (.ok false db s3 m)).1.message
              = "Failed to delete \"" ++ songName ++ "\". " ++ s))
      ∧ ((AppMain.deleteSong st songId songName true .thrown).1.songs = st.songs
        ∧ (AppMain.deleteSong st songId songName true .thrown).1.message
            = "Failed to delete \"" ++ songName ++ "\". Please try again.") := by
  have hfail : (AppMain.deleteSong st songId songName true (.ok false db s3 m)).1.message
      = "Failed to delete \"" ++ songName ++ "\". " ++ jsOr m "Unknown error." := by
    simp [AppMain.deleteSong, AppMain.deleteStart]
  refine ⟨⟨?_, ?_, ?_⟩, ⟨?_, ?_, ?_⟩, ?_, ?_⟩
  · simp only [AppMain.deleteSong, AppMain.deleteStart]
    simp only [Bool.not_true, Bool.false_eq_true, if_false]
    exact List.filter_sublist st.songs
  · intro song
    simp [AppMain.deleteSong, AppMain.deleteStart, List.mem_filter]
  · simp [AppMain.deleteSong, AppMain.deleteStart]
  · simp [AppMain.deleteSong, AppMain.deleteStart]
  · intro h
    rw [hfail, jsOr_none_or_empty m _ h, String.append_assoc,
      show ("\". " ++ "Unknown error." : String) = "\". Unknown error." from rfl]
  · intro s hm hs
    rw [hfail, hm, jsOr_some_of_ne s _ hs]
  · simp [AppMain.deleteSong, AppMain.deleteStart]
  · simp [AppMain.deleteSong, AppMain.deleteStart]

/-- Witness for C4: deleting the concrete sample song with both tiers
confirming, with a reported failure, and with a thrown request. -/
theorem C4_delete_song_witness :
    (AppMain.deleteSong busyAppState "song-1" "Artist - Song" true
        (.ok true true false none)).1.songs = []
      ∧ (AppMain.deleteSong busyAppState "song-1" "Artist - Song" true
          (.ok true true false none)).1.message
        = "\"Artist - Song\" deleted: ✅ Database | ❌ Cloud Storage"
      ∧ (AppMain.deleteSong busyAppState "song-1" "Artist - Song" true
          (.ok false true false (some "nope"))).1.songs = busyAppState.songs
      ∧ (AppMain.deleteSong busyAppState "song-1" "Artist - Song" true
          (.ok false true false (some "nope"))).1.message
        = "Failed to delete \"Artist - Song\". nope" := by
  have h1 := C4_delete_song busyAppState "song-1" "Artist - Song" true false none
  have h2 := C4_delete_song busyAppState "song-1" "Artist - Song" true false (some "nope")
  refine ⟨?_, ?_, h2.2.1.1, h2.2.1.2.2 "nope" rfl (by decide)⟩
  · have hmem := h1.1.2.1 sampleSong
    have hsub := h1.1.1
    have : sampleSong ∉ (AppMain.deleteSong busyAppState "song-1" "Artist - Song" true
        (.ok true true false none)).1.songs := by
      intro hin
      exact ((hmem.mp hin).2) (by decide)
    have hall := hsub.subset
    cases hq : (AppMain.deleteSong busyAppState "song-1" "Artist - Song" true
        (.ok true true false none)).1.songs with
    | nil => rfl
    | cons b rest =>
      exfalso
      have hb : b ∈ busyAppState.songs := hall (by rw [hq]; exact List.mem_cons_self b rest)
      have hb1 : b = sampleSong := by
        simpa [busyAppState] using hb
      have := h1.1.2.1 b
      have hbin : b ∈ (AppMain.deleteSong busyAppState "song-1" "Artist - Song" true
          (.ok true true false none)).1.songs := by
        rw [hq]; exact List.mem_cons_self b rest
      exact (this.mp hbin).2 (by rw [hb1]; decide)
  · exact h1.1.2.2

/-- Claim C5: for every list-fetch invocation that fails — the request
throws, the response fails to parse, or the parsed payload carries
`success = false` — the previously held songs snapshot is left exactly
unchanged and the status message is set to "Failed to load sample
songs." (in both variants that implement `fetchSampleSongs`). -/
theorem C5_failed_fetch (stA : AppMain.AppState) (stR : RandomApp.State)
    (oA : ListOutcome AppMain.Song) (oR : ListOutcome RandomApp.Song)
    (hA : listFetchFailed oA = true) (hR : listFetchFailed oR = true) :
    (AppMain.fetchSampleSongs stA oA).songs = stA.songs
      ∧ (AppMain.fetchSampleSongs stA oA).message = "Failed to load sample songs."
      ∧ (RandomApp.fetchSampleSongs stR oR).songs = stR.songs
      ∧ (RandomApp.fetchSampleSongs stR oR).message = "Failed to load sample songs." := by
  have kA : (AppMain.fetchSampleSongs stA oA).songs = stA.songs
      ∧ (AppMain.fetchSampleSongs stA oA).message = "Failed to load sample songs." := by
    cases oA with
    | thrown => simp [AppMain.fetchSampleSongs, AppMain.fetchStart]
    | ok success songs m =>
      have hs : success = false := by simpa [listFetchFailed] using hA
      subst hs
      simp [AppMain.fetchSampleSongs, AppMain.fetchStart]
  have kR : (RandomApp.fetchSampleSongs stR oR).songs = stR.songs
      ∧ (RandomApp.fetchSampleSongs stR oR).message = "Failed to load sample songs." := by
    cases oR with
    | thrown => simp [RandomApp.fetchSampleSongs]
    | ok success songs m =>
      have hs : success = false := by simpa [listFetchFailed] using hR
      subst hs
      simp [RandomApp.fetchSampleSongs]
  exact ⟨kA.1, kA.2, kR.1, kR.2⟩

/-- Witness for C5: a thrown fetch on the concrete `App.tsx` state and a
`success = false` payload on the concrete `part_001` state. -/
theorem C5_failed_fetch_witness :
    (AppMain.fetchSampleSongs busyAppState .thrown).songs = busyAppState.songs
      ∧ (AppMain.fetchSampleSongs busyAppState .thrown).message
          = "Failed to load sample songs."
      ∧ (RandomApp.fetchSampleSongs sampleRandomState (.ok false none none)).songs
          = sampleRandomState.songs
      ∧ (RandomApp.fetchSampleSongs sampleRandomState (.ok false none none)).message
          = "Failed to load sample songs." :=
  C5_failed_fetch busyAppState sampleRandomState .thrown (.ok false none none) rfl rfl

/-- Claim C7: a repeat download (or delete) request for an item whose id
is already in the corresponding busy-set is never issued — the rendered
control is disabled, so the gated click leaves the state unchanged and
issues no request — while an item outside both busy-sets keeps an enabled
download control, and starting a download of one item does not change the
disabled status of a distinct item's control. -/
theorem C7_busy_set_guard (st : AppMain.AppState)
    (songId songName otherId : String) (c : Bool)
    (oD : DownloadOutcome) (oDel : DeleteOutcome)
    (hdl : jsSetHas st.downloadingSongs songId = true)
    (hne : otherId ≠ songId) :
    AppMain.downloadSongGated st songId songName oD = (st, false)
      ∧ (jsSetHas st.deletingSongs songId = true →
          AppMain.deleteSongGated st songId songName c oDel = (st, false))
      ∧ AppMain.downloadButtonDisabled (AppMain.downloadStart st songId) otherId
          = AppMain.downloadButtonDisabled st otherId
      ∧ (jsSetHas st.downloadingSongs otherId = false →
          jsSetHas st.deletingSongs otherId = false →
          AppMain.downloadButtonDisabled st otherId = false) := by
  refine ⟨?_, ?_, ?_, ?_⟩
  · simp [AppMain.downloadSongGated, AppMain.downloadButtonDisabled, hdl]
  · intro hdel
    simp [AppMain.deleteSongGated, AppMain.deleteButtonDisabled, hdel]
  · simp [AppMain.downloadButtonDisabled, AppMain.downloadStart,
      jsSetHas_add_of_ne st.downloadingSongs songId otherId hne]
  · intro h1 h2
    simp [AppMain.downloadButtonDisabled, h1, h2]

/-- Witness for C7: the concrete state with "song-1" in both busy-sets
and the distinct id "song-2" outside them. -/
theorem C7_busy_set_guard_witness :
    AppMain.downloadSongGated busyAppState "song-1" "Artist - Song.mp3"
        (.response 200 5) = (busyAppState, false)
      ∧ AppMain.deleteSongGated busyAppState "song-1" "Artist - Song" true
          (.ok true true true none) = (busyAppState, false)
      ∧ AppMain.downloadButtonDisabled
          (AppMain.downloadStart busyAppState "song-1") "song-2"
        = AppMain.downloadButtonDisabled busyAppState "song-2" := by
  have h := C7_busy_set_guard busyAppState "song-1" "Artist - Song.mp3" "song-2" true
    (.response 200 5) (.ok true true true none) (by decide) (by decide)
  exact ⟨h.1, h.2.1 (by decide), h.2.2.1⟩

/-- Claim C8: every download, delete, and list-fetch operation asserts
its busy/loading marker before issuing the request, and clears it on
every completion path, so after the operation completes the item's id is
absent from the busy-set (and the loading flag is false) regardless of
outcome. -/
theorem C8_busy_markers_cleared (st : AppMain.AppState) (songId songName : String)
    (oD : DownloadOutcome) (oDel : DeleteOutcome) (oL : ListOutcome AppMain.Song) :
    jsSetHas (AppMain.downloadStart st songId).downloadingSongs songId = true
      ∧ jsSetHas (AppMain.deleteStart st songId).deletingSongs songId = true
      ∧ (AppMain.fetchStart st).loadingSongs = true
      ∧ jsSetHas (AppMain.downloadSong st songId songName oD).downloadingSongs songId
          = false
      ∧ jsSetHas (AppMain.deleteSong st songId songName true oDel).1.deletingSongs songId
          = false
      ∧ (AppMain.fetchSampleSongs st oL).loadingSongs = false := by
  refine ⟨?_, ?_, rfl, ?_, ?_, ?_⟩
  · exact jsSetHas_add_self st.downloadingSongs songId
  · exact jsSetHas_add_self st.deletingSongs songId
  · cases oD with
    | fetchThrown errMessage =>
      simp [AppMain.downloadSong, AppMain.downloadStart, jsSetHas_delete_self]
    | response status blobSize =>
      simp only [AppMain.downloadSong, AppMain.downloadStart]
      split
      · simp [jsSetHas_delete_self]
      · split
        · simp [jsSetHas_delete_self]
        · simp [jsSetHas_delete_self]
  · cases oDel with
    | thrown => simp [AppMain.deleteSong, AppMain.deleteStart, jsSetHas_delete_self]
    | ok success db s3 m =>
      cases success with
      | true => simp [AppMain.deleteSong, AppMain.deleteStart, jsSetHas_delete_self]
      | false => simp [AppMain.deleteSong, AppMain.deleteStart, jsSetHas_delete_self]
  · cases oL with
    | thrown => simp [AppMain.fetchSampleSongs, AppMain.fetchStart]
    | ok success songs m =>
      cases success with
      | true => simp [AppMain.fetchSampleSongs, AppMain.fetchStart]
      | false => simp [AppMain.fetchSampleSongs, AppMain.fetchStart]

/-- Claim C10: if the user declines the deletion confirmation prompt,
`deleteSong` returns immediately: no network request is issued and the
entire state is unchanged. -/
theorem C10_decline_confirm_no_effect (st : AppMain.AppState)
    (songId songName : String) (o : DeleteOutcome) :
    AppMain.deleteSong st songId songName false o = (st, false) := rfl

end AudioFrontend
